import Mathlib

/-!
Verification of `kube-scan.py`: a CLI tool that lists container images in a
cluster, scans each with an external vulnerability scanner, and aggregates
severity counts.  The Python source is shallowly embedded below: external
process invocations (kubectl, grype, the csv writer) are modelled by an
environment record describing their observable outcomes, JSON values by an
inductive type, Python exceptions by an error type threaded through `Except`.
-/

namespace KubeScan

/-- A JSON value, as produced by `json.loads`.  An object is the list of its
key/value entries; `json.loads` resolves duplicate keys by keeping the last,
which `lookupLast` below reproduces. -/
inductive Json where
  | null : Json
  | bool (b : Bool) : Json
  | num (n : Int) : Json
  | str (s : String) : Json
  | arr (elems : List Json) : Json
  | obj (entries : List (String × Json)) : Json

/-- Python exceptions that the script can raise or catch. -/
inductive PyExc where
  | calledProcessError
  | jsonDecodeError
  | attributeError
  | typeError
  | osError
deriving DecidableEq

/-- Value of key `k` in a JSON object's entry list; the last binding wins,
matching Python dict construction from JSON text. -/
def lookupLast (kvs : List (String × Json)) (k : String) : Option Json :=
  kvs.foldl (fun acc kv => if kv.fst = k then some kv.snd else acc) none

/-- Python `d.get(k, dflt)` on a dict. -/
def dictGetD (kvs : List (String × Json)) (k : String) (dflt : Json) : Json :=
  match lookupLast kvs k with
  | some v => v
  | none => dflt

/-- Python `str.capitalize()`: first character uppercased, the rest
lowercased (ASCII behaviour suffices for the severity labels involved). -/
def pyCapitalize (s : String) : String :=
  match s.data with
  | [] => ""
  | c :: cs => String.mk (c.toUpper :: cs.map Char.toLower)

/-- Python iteration `for m in x`: lists yield their elements, dicts their
keys, strings their characters; other values raise `TypeError`. -/
def pyIter : Json → Except PyExc (List Json)
  | Json.arr xs => Except.ok xs
  | Json.obj kvs => Except.ok (kvs.map fun kv => Json.str kv.fst)
  | Json.str s => Except.ok (s.data.map fun c => Json.str (String.mk [c]))
  | _ => Except.error PyExc.typeError

/-- Outcome of one external scanner invocation (`subprocess.run` of grype):
either the process could not be spawned at all (missing binary, an `OSError`),
or it ran to completion with an exit code and a standard output that either
parses as the JSON value carried here or is unparseable (`none`). -/
inductive ScanInvocation where
  | spawnFailure
  | completed (exitCode : Int) (stdout : Option Json)

/-- `get_unique_images` (kube-scan.py:15-21): given the lines of kubectl's
stdout, `sorted(set(filter(None, result.stdout.splitlines())))` — drop empty
lines, deduplicate, sort lexicographically. -/
def get_unique_images (lines : List String) : List String :=
  List.insertionSort (· ≤ ·) ((lines.filter fun s => !(s == "")).dedup)

/-- `scan_image` (kube-scan.py:23-33).  Only `CalledProcessError` (non-zero
exit under `check=True`) is caught: it prints a warning naming the image to
stderr and returns `[]`.  A spawn failure or unparseable stdout propagates;
`data.get("matches", [])` on a non-dict top-level value raises
`AttributeError`.  Returns the matches value together with the list of
warning lines written to stderr. -/
def scan_image (image : String) (inv : ScanInvocation) :
    Except PyExc (Json × List String) :=
  match inv with
  | ScanInvocation.spawnFailure => Except.error PyExc.osError
  | ScanInvocation.completed code out =>
    if code = 0 then
      match out with
      | none => Except.error PyExc.jsonDecodeError
      | some (Json.obj kvs) =>
          Except.ok (dictGetD kvs "matches" (Json.arr []), [])
      | some _ => Except.error PyExc.attributeError
    else
      Except.ok (Json.arr [], ["[!] Warning: failed to scan " ++ image])

/-- A severity histogram over the fixed enum Critical/High/Medium/Low.  The
script's `defaultdict(int)` only ever increments these four keys and only
ever reads these four keys, so four counters model it exactly. -/
@[ext]
structure SeverityCount where
  critical : Nat
  high : Nat
  medium : Nat
  low : Nat
deriving DecidableEq

/-- The empty histogram (`defaultdict(int)` with no increments). -/
def zeroSC : SeverityCount := ⟨0, 0, 0, 0⟩

/-- One iteration of the `summarize` loop body after normalization:
`if sev in ("Critical", "High", "Medium", "Low"): cnt[sev] += 1`. -/
def bump (c : SeverityCount) (sev : String) : SeverityCount :=
  if sev = "Critical" then { c with critical := c.critical + 1 }
  else if sev = "High" then { c with high := c.high + 1 }
  else if sev = "Medium" then { c with medium := c.medium + 1 }
  else if sev = "Low" then { c with low := c.low + 1 }
  else c

/-- `m.get("vulnerability", {}).get("severity", "").capitalize()`
(kube-scan.py:38): each `.get` raises `AttributeError` on a non-dict
receiver, and `.capitalize()` raises `AttributeError` when the severity
value is not a string. -/
def getSeverity (m : Json) : Except PyExc String :=
  match m with
  | Json.obj kvs =>
    match dictGetD kvs "vulnerability" (Json.obj []) with
    | Json.obj kvs2 =>
      match dictGetD kvs2 "severity" (Json.str "") with
      | Json.str s => Except.ok (pyCapitalize s)
      | _ => Except.error PyExc.attributeError
    | _ => Except.error PyExc.attributeError
  | _ => Except.error PyExc.attributeError

/-- The `summarize` loop (kube-scan.py:35-41) over an explicit match list,
carrying the accumulator. -/
def summarizeAux (c : SeverityCount) : List Json → Except PyExc SeverityCount
  | [] => Except.ok c
  | m :: ms =>
    match getSeverity m with
    | Except.error e => Except.error e
    | Except.ok sev => summarizeAux (bump c sev) ms

/-- `summarize` (kube-scan.py:35-41) applied to a list of match values. -/
def summarize (ms : List Json) : Except PyExc SeverityCount :=
  summarizeAux zeroSC ms

/-- `summarize` applied to the raw matches value returned by `scan_image`
(which need not be a JSON array): `for m in matches` first iterates it. -/
def summarizePy (matchesVal : Json) : Except PyExc SeverityCount :=
  match pyIter matchesVal with
  | Except.error e => Except.error e
  | Except.ok ms => summarize ms

/-- Whether `getSeverity` succeeds on `m` with exactly the label `target`. -/
def sevIs (target : String) (m : Json) : Bool :=
  match getSeverity m with
  | Except.ok s => decide (s = target)
  | Except.error _ => false

/-- Whether `m`'s normalized severity is one of the four recognized labels. -/
def sevRecognized (m : Json) : Bool :=
  sevIs "Critical" m || sevIs "High" m || sevIs "Medium" m || sevIs "Low" m

/-- The loop body `total[sev] += s.get(sev, 0)` for the four severities
(kube-scan.py:57-58): element-wise addition of histograms. -/
def accumulate (t s : SeverityCount) : SeverityCount :=
  ⟨t.critical + s.critical, t.high + s.high, t.medium + s.medium, t.low + s.low⟩

/-- Element-wise sum of a list of histograms. -/
def elementwiseSum (l : List SeverityCount) : SeverityCount :=
  ⟨(l.map SeverityCount.critical).sum, (l.map SeverityCount.high).sum,
   (l.map SeverityCount.medium).sum, (l.map SeverityCount.low).sum⟩

/-- One row appended to `per_image` (kube-scan.py:59-65). -/
structure ImageReport where
  image : String
  counts : SeverityCount
deriving DecidableEq

/-- A write to stdout by `main`: abstracting what `print`/`tabulate` render. -/
inductive OutEvent where
  | progress (image : String)
  | summaryHeader
  | summaryTable (total : SeverityCount)
  | completion (file : String)
deriving DecidableEq

/-- The mutable state of `main`'s loop: the running total, the `per_image`
row list, and the text written so far to stdout and stderr. -/
structure LoopState where
  total : SeverityCount
  per_image : List ImageReport
  stdoutEvents : List OutEvent
  stderrMsgs : List String

/-- The loop state at entry to the loop (kube-scan.py:49-50). -/
def initState : LoopState := ⟨zeroSC, [], [], []⟩

/-- The observable environment of one run: whether the kubectl query exits
zero, its stdout lines, each image's scanner invocation outcome, and whether
opening/writing the CSV file succeeds. -/
structure Env where
  kubectlOk : Bool
  kubectlLines : List String
  scans : String → ScanInvocation
  writeOk : Bool

/-- The `for img in images` loop (kube-scan.py:53-65).  An uncaught Python
exception aborts the loop, carrying the state reached so far (its stderr and
stdout were already flushed when the traceback is printed). -/
def runLoop (env : Env) : List String → LoopState →
    Except (PyExc × LoopState) LoopState
  | [], st => Except.ok st
  | img :: rest, st =>
    let st1 := { st with stdoutEvents := st.stdoutEvents ++ [OutEvent.progress img] }
    match scan_image img (env.scans img) with
    | Except.error e => Except.error (e, st1)
    | Except.ok (matchesVal, warns) =>
      let st2 := { st1 with stderrMsgs := st1.stderrMsgs ++ warns }
      match summarizePy matchesVal with
      | Except.error e => Except.error (e, st2)
      | Except.ok s =>
        runLoop env rest
          { st2 with
            total := accumulate st2.total s,
            per_image := st2.per_image ++ [⟨img, s⟩] }

/-- The state in which the loop left the program, whether it completed or
was aborted by an exception. -/
def loopFinal (r : Except (PyExc × LoopState) LoopState) : LoopState :=
  match r with
  | Except.ok st => st
  | Except.error es => es.snd

/-- How the process ended: `sys.exit`/normal return with an exit code, or an
uncaught Python exception (traceback, exit code 1 via the interpreter). -/
inductive Outcome where
  | exited (code : Int)
  | crashed (e : PyExc)
deriving DecidableEq

/-- Everything observable about one run of `main`. -/
structure RunResult where
  outcome : Outcome
  stdoutEvents : List OutEvent
  stderrMsgs : List String
  csvFile : Option (List (List String))

/-- The CSV header row written by `writer.writeheader()` with
`fieldnames=["Image", "Critical", "High", "Medium", "Low"]`. -/
def csvHeader : List String := ["Image", "Critical", "High", "Medium", "Low"]

/-- The CSV data row `writer.writerows` emits for one `per_image` entry. -/
def imageReportRow (r : ImageReport) : List String :=
  [r.image, toString r.counts.critical, toString r.counts.high,
   toString r.counts.medium, toString r.counts.low]

/-- `main` (kube-scan.py:43-86).  kubectl failure raises an uncaught
`CalledProcessError` inside `get_unique_images` (`check=True`); an empty
image list prints "No images found." to stderr and exits 1; otherwise the
loop runs, the cumulative summary is printed to stdout, and the per-image
CSV is written — a failing `open` raises an uncaught `OSError` after the
summary was printed but before any file content exists. -/
def runMain (env : Env) : RunResult :=
  if env.kubectlOk then
    let images := get_unique_images env.kubectlLines
    if images = [] then
      { outcome := Outcome.exited 1, stdoutEvents := [],
        stderrMsgs := ["No images found."], csvFile := none }
    else
      match runLoop env images initState with
      | Except.error (e, st) =>
        { outcome := Outcome.crashed e, stdoutEvents := st.stdoutEvents,
          stderrMsgs := st.stderrMsgs, csvFile := none }
      | Except.ok st =>
        let outs := st.stdoutEvents ++ [OutEvent.summaryHeader, OutEvent.summaryTable st.total]
        if env.writeOk then
          { outcome := Outcome.exited 0,
            stdoutEvents := outs ++ [OutEvent.completion "grype-per-image-report.csv"],
            stderrMsgs := st.stderrMsgs,
            csvFile := some (csvHeader :: st.per_image.map imageReportRow) }
        else
          { outcome := Outcome.crashed PyExc.osError, stdoutEvents := outs,
            stderrMsgs := st.stderrMsgs, csvFile := none }
  else
    { outcome := Outcome.crashed PyExc.calledProcessError, stdoutEvents := [],
      stderrMsgs := [], csvFile := none }

/-- A match object with the given severity string, as grype emits them:
`{"vulnerability": {"severity": sev}}`. -/
def mkMatch (sev : String) : Json :=
  Json.obj [("vulnerability", Json.obj [("severity", Json.str sev)])]

/-- The loop invariant of `main`: the running total is the element-wise sum
of the per-image rows accumulated so far. -/
def stInv (st : LoopState) : Prop :=
  st.total = elementwiseSum (st.per_image.map ImageReport.counts)

/- ### Helper lemmas -/

/-- The `bump` step changes the Critical counter by the Critical indicator. -/
theorem bump_critical (c : SeverityCount) (sev : String) :
    (bump c sev).critical = c.critical + (if sev = "Critical" then 1 else 0) := by
  unfold bump
  split_ifs
  all_goals simp_all

/-- The `bump` step changes the High counter by the High indicator. -/
theorem bump_high (c : SeverityCount) (sev : String) :
    (bump c sev).high = c.high + (if sev = "High" then 1 else 0) := by
  unfold bump
  split_ifs
  all_goals simp_all

/-- The `bump` step changes the Medium counter by the Medium indicator. -/
theorem bump_medium (c : SeverityCount) (sev : String) :
    (bump c sev).medium = c.medium + (if sev = "Medium" then 1 else 0) := by
  unfold bump
  split_ifs
  all_goals simp_all

/-- The `bump` step changes the Low counter by the Low indicator. -/
theorem bump_low (c : SeverityCount) (sev : String) :
    (bump c sev).low = c.low + (if sev = "Low" then 1 else 0) := by
  unfold bump
  split_ifs
  all_goals simp_all

/-- When the `summarize` loop completes, each bucket has grown by the number
of matches carrying that normalized severity. -/
theorem summarizeAux_counts (ms : List Json) :
    ∀ c cnt : SeverityCount, summarizeAux c ms = Except.ok cnt →
      cnt.critical = c.critical + ms.countP (sevIs "Critical") ∧
      cnt.high = c.high + ms.countP (sevIs "High") ∧
      cnt.medium = c.medium + ms.countP (sevIs "Medium") ∧
      cnt.low = c.low + ms.countP (sevIs "Low") := by
  induction ms with
  | nil =>
    intro c cnt h
    simp only [summarizeAux] at h
    cases h
    simp
  | cons m ms ih =>
    intro c cnt h
    rw [summarizeAux] at h
    cases hm : getSeverity m with
    | error e => rw [hm] at h; cases h
    | ok sev =>
      rw [hm] at h
      obtain ⟨h1, h2, h3, h4⟩ := ih (bump c sev) cnt h
      have hsev : ∀ t : String, sevIs t m = decide (sev = t) := by
        intro t; simp [sevIs, hm]
      refine ⟨?_, ?_, ?_, ?_⟩
      · rw [h1, bump_critical, List.countP_cons, hsev]
        by_cases hc : sev = "Critical"
        all_goals simp [hc]
        all_goals omega
      · rw [h2, bump_high, List.countP_cons, hsev]
        by_cases hc : sev = "High"
        all_goals simp [hc]
        all_goals omega
      · rw [h3, bump_medium, List.countP_cons, hsev]
        by_cases hc : sev = "Medium"
        all_goals simp [hc]
        all_goals omega
      · rw [h4, bump_low, List.countP_cons, hsev]
        by_cases hc : sev = "Low"
        all_goals simp [hc]
        all_goals omega

/-- A match is recognized exactly when it carries one of the four labels, so
the recognized count splits into the four bucket counts. -/
theorem countP_recognized (ms : List Json) :
    ms.countP sevRecognized =
      ms.countP (sevIs "Critical") + ms.countP (sevIs "High") +
        ms.countP (sevIs "Medium") + ms.countP (sevIs "Low") := by
  induction ms with
  | nil => simp
  | cons m ms ih =>
    simp only [List.countP_cons, ih]
    have hsplit : (if sevRecognized m then 1 else 0) =
        (if sevIs "Critical" m then 1 else 0) + (if sevIs "High" m then 1 else 0) +
          ((if sevIs "Medium" m then 1 else 0) + (if sevIs "Low" m then 1 else 0)) := by
      cases hm : getSeverity m with
      | error e => simp [sevRecognized, sevIs, hm]
      | ok sev =>
        simp only [sevRecognized, sevIs, hm]
        by_cases h1 : sev = "Critical" <;> by_cases h2 : sev = "High" <;>
          by_cases h3 : sev = "Medium" <;> by_cases h4 : sev = "Low" <;>
          simp_all
    omega

/-- `accumulate` is associative. -/
theorem accumulate_assoc (a b c : SeverityCount) :
    accumulate (accumulate a b) c = accumulate a (accumulate b c) := by
  simp [accumulate, Nat.add_assoc]

/-- `accumulate` is commutative. -/
theorem accumulate_comm (a b : SeverityCount) : accumulate a b = accumulate b a := by
  simp [accumulate, Nat.add_comm]

/-- Folding `accumulate` computes the element-wise sum, shifted by the
initial value. -/
theorem foldl_accumulate (l : List SeverityCount) :
    ∀ init, l.foldl accumulate init = accumulate init (elementwiseSum l) := by
  induction l with
  | nil => intro init; simp [elementwiseSum, accumulate]
  | cons x l ih =>
    intro init
    rw [List.foldl_cons, ih]
    simp [elementwiseSum, accumulate, Nat.add_assoc]

/-- Appending a per-image row while accumulating its counts into the total
preserves the total/per-image invariant. -/
theorem stInv_append (st : LoopState) (img : String) (s : SeverityCount)
    (outs : List OutEvent) (errs : List String) (h : stInv st) :
    stInv ⟨accumulate st.total s, st.per_image ++ [⟨img, s⟩], outs, errs⟩ := by
  have hc := congrArg SeverityCount.critical h
  have hh := congrArg SeverityCount.high h
  have hm := congrArg SeverityCount.medium h
  have hl := congrArg SeverityCount.low h
  simp only [stInv, elementwiseSum] at hc hh hm hl
  simp only [stInv, elementwiseSum, List.map_append, List.map_cons, List.map_nil,
    List.sum_append, List.sum_cons, List.sum_nil, accumulate]
  ext
  all_goals simp only at hc hh hm hl ⊢
  all_goals omega

/-- Each iteration of `main`'s loop preserves the total/per-image invariant,
also when the loop is aborted by an uncaught exception. -/
theorem runLoop_inv (env : Env) :
    ∀ (imgs : List String) (st : LoopState), stInv st →
      stInv (loopFinal (runLoop env imgs st)) := by
  intro imgs
  induction imgs with
  | nil => intro st h; simpa [runLoop, loopFinal] using h
  | cons img rest ih =>
    intro st h
    cases hsc : scan_image img (env.scans img) with
    | error e =>
      simp only [runLoop, hsc]
      simpa [loopFinal, stInv] using h
    | ok p =>
      obtain ⟨mv, warns⟩ := p
      cases hsum : summarizePy mv with
      | error e =>
        simp only [runLoop, hsc, hsum]
        simpa [loopFinal, stInv] using h
      | ok s =>
        simp only [runLoop, hsc, hsum]
        exact ih _ (stInv_append st img s _ _ h)

/-- When the loop completes, the per-image rows list has gained exactly one
row per processed image, in order. -/
theorem runLoop_images (env : Env) :
    ∀ (imgs : List String) (st st' : LoopState),
      runLoop env imgs st = Except.ok st' →
      st'.per_image.map ImageReport.image =
        st.per_image.map ImageReport.image ++ imgs := by
  intro imgs
  induction imgs with
  | nil =>
    intro st st' h
    simp only [runLoop] at h
    cases h
    simp
  | cons img rest ih =>
    intro st st' h
    cases hsc : scan_image img (env.scans img) with
    | error e =>
      simp only [runLoop, hsc] at h
      cases h
    | ok p =>
      obtain ⟨mv, warns⟩ := p
      cases hsum : summarizePy mv with
      | error e =>
        simp only [runLoop, hsc, hsum] at h
        cases h
      | ok s =>
        simp only [runLoop, hsc, hsum] at h
        have := ih _ _ h
        simpa [List.map_append] using this

/- ### Claims -/

/-- C1 counterexample: the claim says every scanner failure — including
output that is not parseable as JSON — yields an empty finding list and a
warning, never an error.  But when grype exits zero with unparseable stdout,
`json.loads` raises `JSONDecodeError`, which the `except
subprocess.CalledProcessError` clause does not catch: the error propagates. -/
theorem c1_counterexample :
    scan_image "nginx:1.21" (ScanInvocation.completed 0 none) =
      Except.error PyExc.jsonDecodeError := rfl

/-- C1 (amended): when the scanner invocation exits non-zero, `scan_image`
returns an empty finding list together with a warning naming the failed
image, without propagating an error; summarizing the empty list gives all
four severity counts zero, and the main loop proceeds to the remaining
images with exactly that zero-count ImageReport appended.  (Unparseable
output and spawn failure instead propagate an uncaught exception.) -/
theorem c1_theorem (image : String) (code : Int) (out : Option Json)
    (h : code ≠ 0) (env : Env)
    (hscan : env.scans image = ScanInvocation.completed code out)
    (st : LoopState) (rest : List String) :
    scan_image image (ScanInvocation.completed code out) =
      Except.ok (Json.arr [], ["[!] Warning: failed to scan " ++ image]) ∧
    summarizePy (Json.arr []) = Except.ok zeroSC ∧
    runLoop env (image :: rest) st =
      runLoop env rest
        { st with
          total := accumulate st.total zeroSC,
          per_image := st.per_image ++ [⟨image, zeroSC⟩],
          stdoutEvents := st.stdoutEvents ++ [OutEvent.progress image],
          stderrMsgs := st.stderrMsgs ++ ["[!] Warning: failed to scan " ++ image] } := by
  have hsc : scan_image image (ScanInvocation.completed code out) =
      Except.ok (Json.arr [], ["[!] Warning: failed to scan " ++ image]) := by
    simp [scan_image, h]
  refine ⟨hsc, rfl, ?_⟩
  rw [runLoop, hscan, hsc]
  rfl

/-- C1 witness: a concrete non-zero exit for `nginx:1.21`. -/
theorem c1_witness :
    (1 : Int) ≠ 0 ∧
    (⟨true, ["nginx:1.21"], fun _ => ScanInvocation.completed 1 none, true⟩ : Env).scans
        "nginx:1.21" = ScanInvocation.completed 1 none ∧
    (scan_image "nginx:1.21" (ScanInvocation.completed 1 none) =
        Except.ok (Json.arr [], ["[!] Warning: failed to scan nginx:1.21"]) ∧
      summarizePy (Json.arr []) = Except.ok zeroSC ∧
      runLoop (⟨true, ["nginx:1.21"], fun _ => ScanInvocation.completed 1 none, true⟩ : Env)
          ["nginx:1.21"] initState =
        runLoop (⟨true, ["nginx:1.21"], fun _ => ScanInvocation.completed 1 none, true⟩ : Env)
          []
          { initState with
            total := accumulate initState.total zeroSC,
            per_image := initState.per_image ++ [⟨"nginx:1.21", zeroSC⟩],
            stdoutEvents := initState.stdoutEvents ++ [OutEvent.progress "nginx:1.21"],
            stderrMsgs := initState.stderrMsgs ++ ["[!] Warning: failed to scan nginx:1.21"] }) :=
  ⟨by decide, rfl, c1_theorem "nginx:1.21" 1 none (by decide) _ rfl initState []⟩

/-- C2: whenever `summarize` returns a count, each bucket equals the number
of findings whose case-normalized severity is that bucket's label, and the
four buckets sum to the number of findings with a recognized severity;
findings with a missing or unrecognized severity are counted nowhere. -/
theorem c2_theorem (ms : List Json) (cnt : SeverityCount)
    (h : summarize ms = Except.ok cnt) :
    cnt.critical = ms.countP (sevIs "Critical") ∧
    cnt.high = ms.countP (sevIs "High") ∧
    cnt.medium = ms.countP (sevIs "Medium") ∧
    cnt.low = ms.countP (sevIs "Low") ∧
    cnt.critical + cnt.high + cnt.medium + cnt.low = ms.countP sevRecognized := by
  obtain ⟨h1, h2, h3, h4⟩ := summarizeAux_counts ms zeroSC cnt h
  simp only [zeroSC, Nat.zero_add] at h1 h2 h3 h4
  refine ⟨h1, h2, h3, h4, ?_⟩
  rw [countP_recognized]
  omega

/-- C2 witness: one recognized (Low) and one unrecognized (bogus) finding. -/
theorem c2_witness :
    summarize [mkMatch "Low", mkMatch "bogus"] = Except.ok ⟨0, 0, 0, 1⟩ ∧
    ((⟨0, 0, 0, 1⟩ : SeverityCount).critical =
        [mkMatch "Low", mkMatch "bogus"].countP (sevIs "Critical") ∧
      (⟨0, 0, 0, 1⟩ : SeverityCount).high =
        [mkMatch "Low", mkMatch "bogus"].countP (sevIs "High") ∧
      (⟨0, 0, 0, 1⟩ : SeverityCount).medium =
        [mkMatch "Low", mkMatch "bogus"].countP (sevIs "Medium") ∧
      (⟨0, 0, 0, 1⟩ : SeverityCount).low =
        [mkMatch "Low", mkMatch "bogus"].countP (sevIs "Low") ∧
      (⟨0, 0, 0, 1⟩ : SeverityCount).critical + (⟨0, 0, 0, 1⟩ : SeverityCount).high +
          (⟨0, 0, 0, 1⟩ : SeverityCount).medium + (⟨0, 0, 0, 1⟩ : SeverityCount).low =
        [mkMatch "Low", mkMatch "bogus"].countP sevRecognized) :=
  ⟨rfl, c2_theorem [mkMatch "Low", mkMatch "bogus"] ⟨0, 0, 0, 1⟩ rfl⟩

/-- C3: for every list of raw image-reference lines, the parsed result has
no duplicates, is sorted lexicographically, and contains no empty string;
and the inventory `["nginx:1.21", "nginx:1.21", "redis:7"]` parses to
`["nginx:1.21", "redis:7"]`. -/
theorem c3_theorem (lines : List String) :
    (get_unique_images lines).Nodup ∧
    List.Sorted (· ≤ ·) (get_unique_images lines) ∧
    "" ∉ get_unique_images lines ∧
    get_unique_images ["nginx:1.21", "nginx:1.21", "redis:7"] =
      ["nginx:1.21", "redis:7"] := by
  refine ⟨?_, ?_, ?_, ?_⟩
  · exact (List.perm_insertionSort _ _).nodup_iff.mpr (List.nodup_dedup _)
  · exact List.sorted_insertionSort _ _
  · intro hmem
    rw [get_unique_images, List.mem_insertionSort, List.mem_dedup, List.mem_filter] at hmem
    simp at hmem
  · have h1 : ("nginx:1.21" : String) ≤ "redis:7" := by
      rw [String.le_iff_toList_le]; decide
    have h2 : (["nginx:1.21", "nginx:1.21", "redis:7"].filter
        fun s => !(s == "")).dedup = ["nginx:1.21", "redis:7"] := by decide
    rw [get_unique_images, h2]
    simp [List.insertionSort, List.orderedInsert, h1]

/-- C4: after any number of loop iterations starting from the initial state,
the running total's count for each of the four severities equals the sum of
that severity's counts over the per-image reports appended so far. -/
theorem c4_theorem (env : Env) (imgs : List String) (n : Nat) :
    (loopFinal (runLoop env (imgs.take n) initState)).total.critical =
      ((loopFinal (runLoop env (imgs.take n) initState)).per_image.map
        fun r => r.counts.critical).sum ∧
    (loopFinal (runLoop env (imgs.take n) initState)).total.high =
      ((loopFinal (runLoop env (imgs.take n) initState)).per_image.map
        fun r => r.counts.high).sum ∧
    (loopFinal (runLoop env (imgs.take n) initState)).total.medium =
      ((loopFinal (runLoop env (imgs.take n) initState)).per_image.map
        fun r => r.counts.medium).sum ∧
    (loopFinal (runLoop env (imgs.take n) initState)).total.low =
      ((loopFinal (runLoop env (imgs.take n) initState)).per_image.map
        fun r => r.counts.low).sum := by
  have h0 : stInv initState := by
    simp [stInv, initState, elementwiseSum, zeroSC]
  have h := runLoop_inv env (imgs.take n) initState h0
  rw [stInv] at h
  refine ⟨?_, ?_, ?_, ?_⟩
  · have := congrArg SeverityCount.critical h
    simpa [elementwiseSum, List.map_map, Function.comp] using this
  · have := congrArg SeverityCount.high h
    simpa [elementwiseSum, List.map_map, Function.comp] using this
  · have := congrArg SeverityCount.medium h
    simpa [elementwiseSum, List.map_map, Function.comp] using this
  · have := congrArg SeverityCount.low h
    simpa [elementwiseSum, List.map_map, Function.comp] using this

/-- C5: `accumulate` is element-wise addition and is associative and
commutative; folding any permutation of a list of per-image counts from the
zero total yields the same result, namely their element-wise sum. -/
theorem c5_theorem (l l' : List SeverityCount) (h : l.Perm l') :
    (∀ a b c : SeverityCount,
        accumulate (accumulate a b) c = accumulate a (accumulate b c)) ∧
    (∀ a b : SeverityCount, accumulate a b = accumulate b a) ∧
    l.foldl accumulate zeroSC = elementwiseSum l ∧
    l'.foldl accumulate zeroSC = l.foldl accumulate zeroSC := by
  have hfold : ∀ m : List SeverityCount, m.foldl accumulate zeroSC = elementwiseSum m := by
    intro m
    rw [foldl_accumulate]
    simp [accumulate, zeroSC]
  have hsum : elementwiseSum l' = elementwiseSum l := by
    simp only [elementwiseSum, SeverityCount.mk.injEq]
    exact ⟨((h.map _).sum_eq).symm, ((h.map _).sum_eq).symm,
      ((h.map _).sum_eq).symm, ((h.map _).sum_eq).symm⟩
  exact ⟨accumulate_assoc, accumulate_comm, hfold l, by rw [hfold, hfold, hsum]⟩

/-- C5 witness: the two Scenario E per-image counts, folded in both orders. -/
theorem c5_witness :
    ([⟨1, 0, 2, 0⟩, ⟨0, 3, 0, 1⟩] : List SeverityCount).Perm
        [⟨0, 3, 0, 1⟩, ⟨1, 0, 2, 0⟩] ∧
    ((∀ a b c : SeverityCount,
        accumulate (accumulate a b) c = accumulate a (accumulate b c)) ∧
      (∀ a b : SeverityCount, accumulate a b = accumulate b a) ∧
      ([⟨1, 0, 2, 0⟩, ⟨0, 3, 0, 1⟩] : List SeverityCount).foldl accumulate zeroSC =
        elementwiseSum [⟨1, 0, 2, 0⟩, ⟨0, 3, 0, 1⟩] ∧
      ([⟨0, 3, 0, 1⟩, ⟨1, 0, 2, 0⟩] : List SeverityCount).foldl accumulate zeroSC =
        ([⟨1, 0, 2, 0⟩, ⟨0, 3, 0, 1⟩] : List SeverityCount).foldl accumulate zeroSC) :=
  ⟨List.Perm.swap _ _ _, c5_theorem _ _ (List.Perm.swap _ _ _)⟩

/-- C6: when the collector succeeds but yields no images, the run prints
"No images found." to the diagnostic stream, exits with code 1, and produces
no stdout output and no CSV file. -/
theorem c6_theorem (env : Env) (hk : env.kubectlOk = true)
    (hempty : get_unique_images env.kubectlLines = []) :
    runMain env =
      { outcome := Outcome.exited 1, stdoutEvents := [],
        stderrMsgs := ["No images found."], csvFile := none } := by
  simp [runMain, hk, hempty]

/-- C6 witness: kubectl succeeds with empty output. -/
theorem c6_witness :
    (⟨true, [], fun _ => ScanInvocation.spawnFailure, true⟩ : Env).kubectlOk = true ∧
    get_unique_images
        (⟨true, [], fun _ => ScanInvocation.spawnFailure, true⟩ : Env).kubectlLines = [] ∧
    runMain (⟨true, [], fun _ => ScanInvocation.spawnFailure, true⟩ : Env) =
      { outcome := Outcome.exited 1, stdoutEvents := [],
        stderrMsgs := ["No images found."], csvFile := none } :=
  ⟨rfl, rfl, c6_theorem _ rfl rfl⟩

/-- C7: severity normalization capitalizes the first letter and lowercases
the rest, and the Scenario B match list with severities Critical, high,
HIGH, unknown summarizes to Critical 1, High 2, Medium 0, Low 0. -/
theorem c7_theorem :
    pyCapitalize "high" = "High" ∧ pyCapitalize "HIGH" = "High" ∧
    pyCapitalize "unknown" = "Unknown" ∧
    summarize [mkMatch "Critical", mkMatch "high", mkMatch "HIGH", mkMatch "unknown"] =
      Except.ok ⟨1, 2, 0, 0⟩ := by
  refine ⟨?_, ?_, ?_, ?_⟩ <;> rfl

/-- C8: when all images scan without an uncaught exception and the file
write succeeds, the CSV file consists of exactly the header row
Image,Critical,High,Medium,Low followed by one row per scanned image in
scan order, each carrying the image reference and its four counts. -/
theorem c8_theorem (env : Env) (st : LoopState)
    (hk : env.kubectlOk = true)
    (hne : get_unique_images env.kubectlLines ≠ [])
    (hloop : runLoop env (get_unique_images env.kubectlLines) initState = Except.ok st)
    (hw : env.writeOk = true) :
    (runMain env).csvFile = some (csvHeader :: st.per_image.map imageReportRow) ∧
    st.per_image.map ImageReport.image = get_unique_images env.kubectlLines := by
  constructor
  · simp [runMain, hk, hne, hloop, hw]
  · simpa [initState] using runLoop_images env _ initState st hloop

/-- C8 witness: a single image whose scan fails with a non-zero exit still
yields its zero-count data row after the header. -/
theorem c8_witness :
    runLoop (⟨true, ["a"], fun _ => ScanInvocation.completed 1 none, true⟩ : Env)
        ["a"] initState =
      Except.ok ⟨zeroSC, [⟨"a", zeroSC⟩], [OutEvent.progress "a"],
        ["[!] Warning: failed to scan a"]⟩ ∧
    ((runMain (⟨true, ["a"], fun _ => ScanInvocation.completed 1 none, true⟩ : Env)).csvFile =
        some (csvHeader ::
          (⟨zeroSC, [⟨"a", zeroSC⟩], [OutEvent.progress "a"],
            ["[!] Warning: failed to scan a"]⟩ : LoopState).per_image.map imageReportRow) ∧
      (⟨zeroSC, [⟨"a", zeroSC⟩], [OutEvent.progress "a"],
        ["[!] Warning: failed to scan a"]⟩ : LoopState).per_image.map ImageReport.image =
        get_unique_images ["a"]) :=
  ⟨rfl, c8_theorem _ _ rfl (by decide) rfl rfl⟩

/-- C9 counterexample: with one image scanning successfully (one Critical
finding) and the CSV write failing, the run crashes with an uncaught
`OSError` and nothing at all is written to the diagnostic stream — the
in-memory report is not surfaced there, contrary to the claim. -/
theorem c9_counterexample :
    (runMain (⟨true, ["a"],
        fun _ => ScanInvocation.completed 0
          (some (Json.obj [("matches", Json.arr [mkMatch "Critical"])])), false⟩ : Env)).outcome =
      Outcome.crashed PyExc.osError ∧
    (runMain (⟨true, ["a"],
        fun _ => ScanInvocation.completed 0
          (some (Json.obj [("matches", Json.arr [mkMatch "Critical"])])), false⟩ : Env)).stderrMsgs =
      [] :=
  ⟨rfl, rfl⟩

/-- C9 (amended): when the output file cannot be opened after all scanning
is done, the program terminates with an uncaught `OSError`; the cumulative
summary has already been rendered to standard output before the write is
attempted, but nothing is added to the diagnostic stream and the per-image
report is not surfaced anywhere. -/
theorem c9_theorem (env : Env) (st : LoopState)
    (hk : env.kubectlOk = true)
    (hne : get_unique_images env.kubectlLines ≠ [])
    (hloop : runLoop env (get_unique_images env.kubectlLines) initState = Except.ok st)
    (hw : env.writeOk = false) :
    runMain env =
      { outcome := Outcome.crashed PyExc.osError,
        stdoutEvents := st.stdoutEvents ++
          [OutEvent.summaryHeader, OutEvent.summaryTable st.total],
        stderrMsgs := st.stderrMsgs, csvFile := none } := by
  simp [runMain, hk, hne, hloop, hw]

/-- C9 witness: the same concrete run as the counterexample, with its final
loop state spelled out. -/
theorem c9_witness :
    runLoop (⟨true, ["a"],
        fun _ => ScanInvocation.completed 0
          (some (Json.obj [("matches", Json.arr [mkMatch "Critical"])])), false⟩ : Env)
        ["a"] initState =
      Except.ok ⟨⟨1, 0, 0, 0⟩, [⟨"a", ⟨1, 0, 0, 0⟩⟩], [OutEvent.progress "a"], []⟩ ∧
    runMain (⟨true, ["a"],
        fun _ => ScanInvocation.completed 0
          (some (Json.obj [("matches", Json.arr [mkMatch "Critical"])])), false⟩ : Env) =
      { outcome := Outcome.crashed PyExc.osError,
        stdoutEvents := [OutEvent.progress "a"] ++
          [OutEvent.summaryHeader, OutEvent.summaryTable ⟨1, 0, 0, 0⟩],
        stderrMsgs := [], csvFile := none } :=
  ⟨rfl,
    c9_theorem
      (⟨true, ["a"],
        fun _ => ScanInvocation.completed 0
          (some (Json.obj [("matches", Json.arr [mkMatch "Critical"])])), false⟩ : Env)
      ⟨⟨1, 0, 0, 0⟩, [⟨"a", ⟨1, 0, 0, 0⟩⟩], [OutEvent.progress "a"], []⟩
      rfl (by decide) rfl rfl⟩

/-- C10: when the scanner exits zero and its output parses to a JSON object
with no top-level "matches" field, `scan_image` returns the default empty
finding list without failing, and summarizing it gives all four counts
zero. -/
theorem c10_theorem (image : String) (kvs : List (String × Json))
    (h : lookupLast kvs "matches" = none) :
    scan_image image (ScanInvocation.completed 0 (some (Json.obj kvs))) =
      Except.ok (Json.arr [], []) ∧
    summarizePy (Json.arr []) = Except.ok zeroSC := by
  constructor
  · simp [scan_image, dictGetD, h]
  · rfl

/-- C10 witness: a parsed object with an unrelated field only. -/
theorem c10_witness :
    lookupLast [("foo", Json.null)] "matches" = none ∧
    (scan_image "img" (ScanInvocation.completed 0
        (some (Json.obj [("foo", Json.null)]))) = Except.ok (Json.arr [], []) ∧
      summarizePy (Json.arr []) = Except.ok zeroSC) :=
  ⟨rfl, c10_theorem "img" [("foo", Json.null)] rfl⟩

end KubeScan
